import Mathlib

/-!
# Verification of `operatorcert/entrypoints/github_pr.py`

A shallow embedding of the GitHub-PR CLI tool: the PR body formatter
(`get_pr_body`), the head-reference deriver (`get_head`) and the PR submitter
(`open_pr`), together with theorems settling the specified properties.

Modelling conventions:
* Python exceptions become the `PyError` type; a fallible function returns
  `Except PyError _`.
* `str.split()` (no argument: split on whitespace runs, dropping empty tokens)
  is `pySplit`; `str.split("/")` (keep empty pieces) is `pySplitSlash`;
  the slice `s[1:-1]` is `pyStrip1`.  Whitespace is modelled by
  `Char.isWhitespace`.
* The environment (`os.environ.get`) is a function `String → Option String`;
  the HTTP transport (`requests.post`) is a function
  `HttpRequest → HttpResponse`.  `open_pr` returns, besides its result, the
  list of requests it handed to the transport, so that "no network call" and
  "exactly one request" are stated as facts about that list.
* The third-party `giturlparse` library is not part of this repository; a git
  URL parser is any function `String → Option GitUrl` (see `gitUrlParseModel`).
-/

/-- The failure modes of the program, one constructor per concrete Python
exception, named after the spec's error taxonomy:
* `malformedTitleError` models the `IndexError` raised by `title_parts[1]` or
  `title_parts[2]` in `get_pr_body` when the split title is too short;
* `invalidUrlError` models the failure of `giturlparse.parse` /
  attribute access on an unrecognizable URL in `get_head`;
* `missingCredentialError` models the `Exception("Github API token is
  missing. Set GITHUB_TOKEN env variable.")` raised by `open_pr`;
* `apiRequestError` models the `requests.HTTPError` re-raised by `open_pr`
  on a 4xx/5xx status; it carries the status code and the logged optional
  `message` field of the response body;
* `jsonDecodeError` models `resp.json()` failing on a non-JSON body. -/
inductive PyError where
  | malformedTitleError
  | invalidUrlError (url : String)
  | missingCredentialError (msg : String)
  | apiRequestError (status : Nat) (message : Option String)
  | jsonDecodeError
  deriving DecidableEq, Repr

deriving instance DecidableEq for Except

/-- Result of parsing a git URL: the `owner` path and the repository `name`
(the two fields of the explicit parsing interface). -/
structure GitUrl where
  owner : String
  name : String
  deriving DecidableEq, Repr

/-- An HTTP request as handed to the transport: method, URL, the JSON payload
(an association list of string fields) and the headers. -/
structure HttpRequest where
  method : String
  url : String
  jsonBody : List (String × String)
  headers : List (String × String)
  deriving DecidableEq, Repr

/-- An HTTP response as seen by the program: the status code and the JSON
body, `none` when the body is not parseable JSON (string-valued fields
suffice for this program, which only reads `message` and `url`). -/
structure HttpResponse where
  statusCode : Nat
  jsonData : Option (List (String × String))
  deriving DecidableEq, Repr

/-- Helper for `pySplit`: accumulates the current token (reversed) and cuts at
whitespace, dropping empty tokens, as Python's no-argument `str.split()` does. -/
def splitWsAux : List Char → List Char → List String
  | [], acc => if acc.isEmpty then [] else [String.mk acc.reverse]
  | c :: cs, acc =>
    if c.isWhitespace then
      if acc.isEmpty then splitWsAux cs [] else String.mk acc.reverse :: splitWsAux cs []
    else splitWsAux cs (c :: acc)

/-- Python `s.split()`: split on runs of whitespace, no empty tokens. -/
def pySplit (s : String) : List String := splitWsAux s.data []

/-- Helper for `pySplitSlash`: split at every `/`, keeping empty pieces, as
Python's `str.split("/")` does. -/
def splitSlashAux : List Char → List Char → List String
  | [], acc => [String.mk acc.reverse]
  | c :: cs, acc =>
    if c = '/' then String.mk acc.reverse :: splitSlashAux cs []
    else splitSlashAux cs (c :: acc)

/-- Python `s.split("/")`: always returns at least one piece (`[""].` for the
empty string), empty pieces kept. -/
def pySplitSlash (s : String) : List String := splitSlashAux s.data []

/-- Python `s[1:-1]`: drop the first and the last character (empty result for
strings of length `≤ 2`). -/
def pyStrip1 (s : String) : String := (s.drop 1).dropRight 1

/-- Python truthiness of an optional string (`if x:` where `x` is `None` or a
`str`): false exactly for `None` and for the empty string. -/
def truthyOpt : Option String → Bool
  | none => false
  | some s => !s.isEmpty

/-- `get_pr_body` (github_pr.py lines 143-164): split the title on whitespace,
read the second token as the bundle name and the third token (with first and
last character stripped) as the version, and render the Markdown body,
appending the optional test-result / test-logs URL lines only when the
corresponding argument is truthy.  Accessing a missing token
(`title_parts[1]` / `title_parts[2]`) raises `IndexError`, modelled by
`PyError.malformedTitleError`. -/
def get_pr_body (title cert_project_id : String)
    (test_result_url test_logs_url : Option String) : Except PyError String :=
  let title_parts := pySplit title
  match title_parts[1]?, title_parts[2]? with
  | some nameTok, some verTok =>
    let body := "**New operator bundle**\n\n"
      ++ "Name: **" ++ nameTok ++ "**\n"
      ++ "Version: **" ++ pyStrip1 verTok ++ "**\n\n"
      ++ "Certification project: " ++ cert_project_id ++ "\n\n"
    let body := if truthyOpt test_result_url then
        body ++ "Test result URL: " ++ test_result_url.getD "" ++ "\n"
      else body
    let body := if truthyOpt test_logs_url then
        body ++ "Test logs URL: " ++ test_logs_url.getD "" ++ "\n"
      else body
    .ok body
  | _, _ => .error .malformedTitleError

/-- `get_head` (github_pr.py lines 125-140), parameterized by the git URL
parser (the external `giturlparse` library, per the spec's explicit interface
`parse_git_url : String → Option GitUrl`): on a parse failure the program
fails with `invalidUrlError`; otherwise the namespace is the first
`/`-separated segment of the parsed owner path and the result is
`"{namespace}:{branch}"`. -/
def get_head (parse_git_url : String → Option GitUrl)
    (repository_url branch : String) : Except PyError String :=
  match parse_git_url repository_url with
  | none => .error (.invalidUrlError repository_url)
  | some parsed_url =>
    let path := parsed_url.owner
    .ok ((pySplitSlash path).headD "" ++ ":" ++ branch)

/-- Modelled from the spec: the repository delegates git URL parsing to the
external `giturlparse` library, whose code is not under `src/`.  Following the
spec's design note ("replace with an explicit interface
`parse_git_url(string) -> {owner, name}`"), this is one concrete parser for
`https://github.com/<owner path>/<name>` URLs, returning `none` on anything
else; it instantiates the parser-generic theorems about `get_head`. -/
def gitUrlParseModel (url : String) : Option GitUrl :=
  let pre := "https://github.com/"
  if url.take pre.length = pre then
    let segs := pySplitSlash (url.drop pre.length)
    if 2 ≤ segs.length then
      if segs.all (fun t => !t.isEmpty) then
        some ⟨String.intercalate "/" segs.dropLast, segs.getLastD ""⟩
      else none
    else none
  else none

/-- `open_pr` (github_pr.py lines 70-122), parameterized by the environment
and the HTTP transport.  Reads `GITHUB_TOKEN`; if it is absent or empty
(Python `if not token:`) it fails with `missingCredentialError` before
touching the transport.  Otherwise it issues exactly one POST to
`{github_api_url}/repos/{repo_name}/pulls` with the JSON payload
`{head, base, title, body}` and the Accept / Authorization headers.
`resp.raise_for_status()` raises exactly for status codes in `[400, 600)`;
in that case the status and the response's optional `message` field are
carried in `apiRequestError`.  Otherwise the parsed JSON body is returned
(`jsonDecodeError` when the body is not JSON).  The second component is the
list of requests handed to the transport. -/
def open_pr (env : String → Option String) (post : HttpRequest → HttpResponse)
    (github_api_url repo_name head base title body : String) :
    Except PyError (List (String × String)) × List HttpRequest :=
  let pr_url := github_api_url ++ "/repos/" ++ repo_name ++ "/pulls"
  let data := [("head", head), ("base", base), ("title", title), ("body", body)]
  match env "GITHUB_TOKEN" with
  | none =>
    (.error (.missingCredentialError
      "Github API token is missing. Set GITHUB_TOKEN env variable."), [])
  | some token =>
    if token.isEmpty then
      (.error (.missingCredentialError
        "Github API token is missing. Set GITHUB_TOKEN env variable."), [])
    else
      let req : HttpRequest :=
        { method := "POST", url := pr_url, jsonBody := data,
          headers := [("Accept", "application/vnd.github.v3+json"),
                      ("Authorization", "Bearer " ++ token)] }
      let resp := post req
      if 400 ≤ resp.statusCode ∧ resp.statusCode < 600 then
        (.error (.apiRequestError resp.statusCode
          (resp.jsonData.bind (List.lookup "message"))), [req])
      else
        match resp.jsonData with
        | some j => (.ok j, [req])
        | none => (.error .jsonDecodeError, [req])

/-- Claim C1: for every title with fewer than 3 whitespace-separated tokens,
`get_pr_body` fails with the malformed-title error (the modelled
`IndexError`), never producing output or another error; for titles with at
least 3 tokens it succeeds. -/
theorem get_pr_body_title_arity (title cert_project_id : String)
    (r l : Option String) :
    ((pySplit title).length < 3 →
      get_pr_body title cert_project_id r l = .error .malformedTitleError) ∧
    (3 ≤ (pySplit title).length →
      ∃ s, get_pr_body title cert_project_id r l = .ok s) := by
  constructor
  · intro h
    have h2 : (pySplit title)[2]? = none := List.getElem?_eq_none (by omega)
    cases hx : (pySplit title)[1]? <;> simp [get_pr_body, hx, h2]
  · intro h
    obtain ⟨v1, h1⟩ : ∃ v, (pySplit title)[1]? = some v :=
      ⟨_, List.getElem?_eq_getElem (by omega)⟩
    obtain ⟨v2, h2⟩ : ∃ v, (pySplit title)[2]? = some v :=
      ⟨_, List.getElem?_eq_getElem (by omega)⟩
    cases hres : get_pr_body title cert_project_id r l with
    | ok s => exact ⟨s, rfl⟩
    | error e => simp [get_pr_body, h1, h2] at hres

/-- Witness for C1 at concrete titles: a 2-token title fails with the
malformed-title error, a 3-token title succeeds. -/
theorem get_pr_body_title_arity_witness :
    get_pr_body "Add operator" "cp-1" none none = .error .malformedTitleError ∧
    ∃ s, get_pr_body "operator my-bundle (1.2.3)" "cp-1" none none = .ok s :=
  ⟨(get_pr_body_title_arity "Add operator" "cp-1" none none).1 (by decide),
   (get_pr_body_title_arity "operator my-bundle (1.2.3)" "cp-1" none none).2 (by decide)⟩

set_option maxHeartbeats 2000000 in
/-- Claim C3: for every title with at least 3 whitespace-separated tokens,
`get_pr_body` renders the fixed Markdown template whose bundle name is
exactly the second token and whose version is exactly the third token with
one leading and one trailing character stripped; in particular the body for
title `"Operator my-bundle (1.2.3)"` and project `"CERT-42"` contains
`Name: **my-bundle**` and `Version: **1.2.3**`. -/
theorem get_pr_body_name_version (title cert_project_id : String)
    (r l : Option String) (nameTok verTok : String)
    (h1 : (pySplit title)[1]? = some nameTok)
    (h2 : (pySplit title)[2]? = some verTok) :
    (∃ rest, get_pr_body title cert_project_id r l =
      .ok ("**New operator bundle**\n\n"
        ++ "Name: **" ++ nameTok ++ "**\n"
        ++ "Version: **" ++ pyStrip1 verTok ++ "**\n\n"
        ++ "Certification project: " ++ cert_project_id ++ "\n\n" ++ rest)) ∧
    (∃ s, get_pr_body "Operator my-bundle (1.2.3)" "CERT-42" none none = .ok s ∧
      (∃ p q, s = p ++ "Name: **my-bundle**" ++ q) ∧
      (∃ p q, s = p ++ "Version: **1.2.3**" ++ q)) := by
  constructor
  · cases hr : truthyOpt r <;> cases hl : truthyOpt l
    · refine ⟨"", ?_⟩
      rw [String.append_empty]
      simp [get_pr_body, h1, h2, hr, hl]
    · refine ⟨"Test logs URL: " ++ l.getD "" ++ "\n", ?_⟩
      have e1 : get_pr_body title cert_project_id r l =
          .ok ("**New operator bundle**\n\n"
            ++ "Name: **" ++ nameTok ++ "**\n"
            ++ "Version: **" ++ pyStrip1 verTok ++ "**\n\n"
            ++ "Certification project: " ++ cert_project_id ++ "\n\n"
            ++ "Test logs URL: " ++ l.getD "" ++ "\n") := by
        simp [get_pr_body, h1, h2, hr, hl]
      exact e1.trans (congrArg Except.ok (by simp only [String.append_assoc]))
    · refine ⟨"Test result URL: " ++ r.getD "" ++ "\n", ?_⟩
      have e1 : get_pr_body title cert_project_id r l =
          .ok ("**New operator bundle**\n\n"
            ++ "Name: **" ++ nameTok ++ "**\n"
            ++ "Version: **" ++ pyStrip1 verTok ++ "**\n\n"
            ++ "Certification project: " ++ cert_project_id ++ "\n\n"
            ++ "Test result URL: " ++ r.getD "" ++ "\n") := by
        simp [get_pr_body, h1, h2, hr, hl]
      exact e1.trans (congrArg Except.ok (by simp only [String.append_assoc]))
    · refine ⟨"Test result URL: " ++ r.getD "" ++ "\n"
          ++ "Test logs URL: " ++ l.getD "" ++ "\n", ?_⟩
      have e1 : get_pr_body title cert_project_id r l =
          .ok ("**New operator bundle**\n\n"
            ++ "Name: **" ++ nameTok ++ "**\n"
            ++ "Version: **" ++ pyStrip1 verTok ++ "**\n\n"
            ++ "Certification project: " ++ cert_project_id ++ "\n\n"
            ++ "Test result URL: " ++ r.getD "" ++ "\n"
            ++ "Test logs URL: " ++ l.getD "" ++ "\n") := by
        simp [get_pr_body, h1, h2, hr, hl]
      exact e1.trans (congrArg Except.ok (by simp only [String.append_assoc]))
  · refine ⟨"**New operator bundle**\n\nName: **my-bundle**\nVersion: **1.2.3**\n\nCertification project: CERT-42\n\n",
      by decide,
      ⟨"**New operator bundle**\n\n",
       "\nVersion: **1.2.3**\n\nCertification project: CERT-42\n\n", by decide⟩,
      ⟨"**New operator bundle**\n\nName: **my-bundle**\n",
       "\n\nCertification project: CERT-42\n\n", by decide⟩⟩

/-- Witness for C3: the theorem applied to title `"Operator my-bundle
(1.2.3)"` and project `"CERT-42"`. -/
theorem get_pr_body_name_version_witness :
    ∃ rest, get_pr_body "Operator my-bundle (1.2.3)" "CERT-42" none none =
      .ok ("**New operator bundle**\n\n"
        ++ "Name: **" ++ "my-bundle" ++ "**\n"
        ++ "Version: **" ++ pyStrip1 "(1.2.3)" ++ "**\n\n"
        ++ "Certification project: " ++ "CERT-42" ++ "\n\n" ++ rest) :=
  (get_pr_body_name_version "Operator my-bundle (1.2.3)" "CERT-42" none none
    "my-bundle" "(1.2.3)" (by decide) (by decide)).1

/-- Claim C7: with both optional URLs supplied and non-empty, the body ends
with the `Test result URL:` line followed by the `Test logs URL:` line, both
after the certification project line; with neither supplied, both lines are
omitted. -/
theorem get_pr_body_url_lines (title cert_project_id : String)
    (nameTok verTok : String)
    (h1 : (pySplit title)[1]? = some nameTok)
    (h2 : (pySplit title)[2]? = some verTok)
    (ru lu : String) (hru : ru ≠ "") (hlu : lu ≠ "") :
    get_pr_body title cert_project_id (some ru) (some lu) =
      .ok ("**New operator bundle**\n\n"
        ++ "Name: **" ++ nameTok ++ "**\n"
        ++ "Version: **" ++ pyStrip1 verTok ++ "**\n\n"
        ++ "Certification project: " ++ cert_project_id ++ "\n\n"
        ++ "Test result URL: " ++ ru ++ "\n"
        ++ "Test logs URL: " ++ lu ++ "\n") ∧
    get_pr_body title cert_project_id none none =
      .ok ("**New operator bundle**\n\n"
        ++ "Name: **" ++ nameTok ++ "**\n"
        ++ "Version: **" ++ pyStrip1 verTok ++ "**\n\n"
        ++ "Certification project: " ++ cert_project_id ++ "\n\n") := by
  have hre : ru.isEmpty = false := by
    cases hh : ru.isEmpty
    · rfl
    · exact absurd ((String.isEmpty_iff ru).mp hh) hru
  have hle : lu.isEmpty = false := by
    cases hh : lu.isEmpty
    · rfl
    · exact absurd ((String.isEmpty_iff lu).mp hh) hlu
  have hr : truthyOpt (some ru) = true := by simp [truthyOpt, hre]
  have hl : truthyOpt (some lu) = true := by simp [truthyOpt, hle]
  constructor
  · simp [get_pr_body, h1, h2, hr, hl]
  · simp [get_pr_body, h1, h2, truthyOpt]

/-- Witness for C7: the theorem applied to title `"Operator my-bundle
(1.2.3)"`, project `"CERT-42"` and two concrete URLs. -/
theorem get_pr_body_url_lines_witness :
    get_pr_body "Operator my-bundle (1.2.3)" "CERT-42"
        (some "https://example.com/result") (some "https://example.com/logs") =
      .ok ("**New operator bundle**\n\n"
        ++ "Name: **" ++ "my-bundle" ++ "**\n"
        ++ "Version: **" ++ pyStrip1 "(1.2.3)" ++ "**\n\n"
        ++ "Certification project: " ++ "CERT-42" ++ "\n\n"
        ++ "Test result URL: " ++ "https://example.com/result" ++ "\n"
        ++ "Test logs URL: " ++ "https://example.com/logs" ++ "\n") ∧
    get_pr_body "Operator my-bundle (1.2.3)" "CERT-42" none none =
      .ok ("**New operator bundle**\n\n"
        ++ "Name: **" ++ "my-bundle" ++ "**\n"
        ++ "Version: **" ++ pyStrip1 "(1.2.3)" ++ "**\n\n"
        ++ "Certification project: " ++ "CERT-42" ++ "\n\n") :=
  get_pr_body_url_lines "Operator my-bundle (1.2.3)" "CERT-42"
    "my-bundle" "(1.2.3)" (by decide) (by decide)
    "https://example.com/result" "https://example.com/logs"
    (by decide) (by decide)

/-- Claim C9: an optional URL supplied as the empty string is treated exactly
as an absent one — `get_pr_body` produces the same body, because the line is
guarded by Python string truthiness. -/
theorem get_pr_body_empty_url_as_absent (title cert_project_id : String)
    (o : Option String) :
    get_pr_body title cert_project_id (some "") o =
      get_pr_body title cert_project_id none o ∧
    get_pr_body title cert_project_id o (some "") =
      get_pr_body title cert_project_id o none := by
  rcases hx : (pySplit title)[1]? with _ | v1 <;>
    rcases hy : (pySplit title)[2]? with _ | v2 <;>
      simp [get_pr_body, hx, hy, truthyOpt,
        show ("" : String).isEmpty = true from rfl]

set_option maxRecDepth 100000 in
/-- Claim C2: for every parser and every URL it can parse, `get_head` returns
`"{namespace}:{branch}"` where the namespace is the first `/`-separated
segment of the parsed owner path; in particular the modelled parser gives
`get_head "https://github.com/alice/my-repo" "fix-1" = "alice:fix-1"`, and an
owner path `"group/sub"` yields namespace `"group"`. -/
theorem get_head_namespace_branch (parse : String → Option GitUrl)
    (repository_url branch : String) (g : GitUrl)
    (hp : parse repository_url = some g) :
    get_head parse repository_url branch =
      .ok ((pySplitSlash g.owner).headD "" ++ ":" ++ branch) ∧
    get_head gitUrlParseModel "https://github.com/alice/my-repo" "fix-1" =
      .ok "alice:fix-1" ∧
    (∃ u : GitUrl, gitUrlParseModel "https://github.com/group/sub/my-repo" = some u ∧
      u.owner = "group/sub" ∧
      get_head gitUrlParseModel "https://github.com/group/sub/my-repo" "fix-1" =
        .ok "group:fix-1") := by
  refine ⟨by simp [get_head, hp], by decide,
    ⟨⟨"group/sub", "my-repo"⟩, by decide, rfl, by decide⟩⟩

set_option maxRecDepth 100000 in
/-- Witness for C2: the theorem applied to the modelled parser at
`"https://github.com/alice/my-repo"`. -/
theorem get_head_namespace_branch_witness :
    get_head gitUrlParseModel "https://github.com/alice/my-repo" "fix-1" =
      .ok "alice:fix-1" :=
  (get_head_namespace_branch gitUrlParseModel "https://github.com/alice/my-repo"
    "fix-1" ⟨"alice", "my-repo"⟩ (by decide)).2.1

/-- Claim C4: for every input the parser cannot parse, `get_head` fails with
the invalid-URL error and with no other kind of error. -/
theorem get_head_invalid_url (parse : String → Option GitUrl)
    (repository_url branch : String)
    (hp : parse repository_url = none) :
    get_head parse repository_url branch =
      .error (.invalidUrlError repository_url) := by
  simp [get_head, hp]

set_option maxRecDepth 100000 in
/-- Witness for C4: the modelled parser rejects `"not a git url"` and
`get_head` fails with the invalid-URL error there. -/
theorem get_head_invalid_url_witness :
    get_head gitUrlParseModel "not a git url" "fix-1" =
      .error (.invalidUrlError "not a git url") :=
  get_head_invalid_url gitUrlParseModel "not a git url" "fix-1" (by decide)

/-- Claim C5: with `GITHUB_TOKEN` unset, `open_pr` fails with the
missing-credential error and hands no request to the HTTP transport. -/
theorem open_pr_missing_token (env : String → Option String)
    (post : HttpRequest → HttpResponse)
    (github_api_url repo_name head base title body : String)
    (henv : env "GITHUB_TOKEN" = none) :
    open_pr env post github_api_url repo_name head base title body =
      (.error (.missingCredentialError
        "Github API token is missing. Set GITHUB_TOKEN env variable."), []) := by
  simp [open_pr, henv]

/-- Witness for C5 at a concrete configuration and transport. -/
theorem open_pr_missing_token_witness :
    open_pr (fun _ => none) (fun _ => ⟨201, some []⟩) "https://api.github.com"
        "acme/widget" "alice:fix-1" "main" "t" "pb" =
      (.error (.missingCredentialError
        "Github API token is missing. Set GITHUB_TOKEN env variable."), []) :=
  open_pr_missing_token (fun _ => none) (fun _ => ⟨201, some []⟩)
    "https://api.github.com" "acme/widget" "alice:fix-1" "main" "t" "pb" rfl

/-- Claim C10: a `GITHUB_TOKEN` that is set to the empty string is treated
exactly as an unset one — `open_pr` fails with the missing-credential error
before any request, and the outcome equals the unset-variable outcome. -/
theorem open_pr_empty_token (env : String → Option String)
    (post : HttpRequest → HttpResponse)
    (github_api_url repo_name head base title body : String)
    (henv : env "GITHUB_TOKEN" = some "") :
    open_pr env post github_api_url repo_name head base title body =
      (.error (.missingCredentialError
        "Github API token is missing. Set GITHUB_TOKEN env variable."), []) ∧
    open_pr env post github_api_url repo_name head base title body =
      open_pr (fun _ => none) post github_api_url repo_name head base title body := by
  constructor <;>
    simp [open_pr, henv, show ("" : String).isEmpty = true from rfl]

/-- Witness for C10 at a concrete configuration and transport. -/
theorem open_pr_empty_token_witness :
    open_pr (fun _ => some "") (fun _ => ⟨201, some []⟩) "https://api.github.com"
        "acme/widget" "alice:fix-1" "main" "t" "pb" =
      (.error (.missingCredentialError
        "Github API token is missing. Set GITHUB_TOKEN env variable."), []) ∧
    open_pr (fun _ => some "") (fun _ => ⟨201, some []⟩) "https://api.github.com"
        "acme/widget" "alice:fix-1" "main" "t" "pb" =
      open_pr (fun _ => none) (fun _ => ⟨201, some []⟩) "https://api.github.com"
        "acme/widget" "alice:fix-1" "main" "t" "pb" :=
  open_pr_empty_token (fun _ => some "") (fun _ => ⟨201, some []⟩)
    "https://api.github.com" "acme/widget" "alice:fix-1" "main" "t" "pb" rfl

/-- Claim C8: with a non-empty token, the single request `open_pr` issues is
a POST to `{github_api_url}/repos/{repo_name}/pulls` with JSON body exactly
`{head, base, title, body}` and the Accept / bearer-Authorization headers,
and on a 2xx response with JSON body `j` it returns `j` unchanged. -/
theorem open_pr_request_and_success (env : String → Option String)
    (post : HttpRequest → HttpResponse)
    (github_api_url repo_name head base title body token : String)
    (j : List (String × String)) (req : HttpRequest)
    (htok : env "GITHUB_TOKEN" = some token) (hne : token ≠ "")
    (hreq : req = { method := "POST",
                    url := github_api_url ++ "/repos/" ++ repo_name ++ "/pulls",
                    jsonBody := [("head", head), ("base", base),
                                 ("title", title), ("body", body)],
                    headers := [("Accept", "application/vnd.github.v3+json"),
                                ("Authorization", "Bearer " ++ token)] })
    (hst1 : 200 ≤ (post req).statusCode) (hst2 : (post req).statusCode < 300)
    (hjson : (post req).jsonData = some j) :
    open_pr env post github_api_url repo_name head base title body =
      (.ok j, [req]) := by
  have hte : token.isEmpty = false := by
    cases hh : token.isEmpty
    · rfl
    · exact absurd ((String.isEmpty_iff token).mp hh) hne
  have hcond : ¬(400 ≤ (post req).statusCode ∧ (post req).statusCode < 600) := by
    omega
  subst hreq
  simp [open_pr, htok, hte, hcond, hjson]

/-- Witness for C8: a simulated 201 response carrying a PR URL is returned
unchanged, and the issued request is the specified POST. -/
theorem open_pr_request_and_success_witness :
    open_pr (fun _ => some "tok-1")
        (fun _ => ⟨201, some [("url", "https://api.github.com/repos/acme/widget/pulls/7")]⟩)
        "https://api.github.com" "acme/widget" "alice:fix-1" "main" "My title" "My body" =
      (.ok [("url", "https://api.github.com/repos/acme/widget/pulls/7")],
       [{ method := "POST",
          url := "https://api.github.com" ++ "/repos/" ++ "acme/widget" ++ "/pulls",
          jsonBody := [("head", "alice:fix-1"), ("base", "main"),
                       ("title", "My title"), ("body", "My body")],
          headers := [("Accept", "application/vnd.github.v3+json"),
                      ("Authorization", "Bearer " ++ "tok-1")] }]) :=
  open_pr_request_and_success (fun _ => some "tok-1")
    (fun _ => ⟨201, some [("url", "https://api.github.com/repos/acme/widget/pulls/7")]⟩)
    "https://api.github.com" "acme/widget" "alice:fix-1" "main" "My title" "My body"
    "tok-1" [("url", "https://api.github.com/repos/acme/widget/pulls/7")] _
    rfl (by decide) rfl (by decide) (by decide) rfl

/-- Counterexample to C6 as stated: a 304 response is not a 2xx status, yet
`open_pr` does not fail with the API-request error — `resp.raise_for_status()`
raises only for statuses in `[400, 600)`, so the parsed body is returned as
success. -/
theorem open_pr_non2xx_not_always_error :
    ¬(200 ≤ (304 : Nat) ∧ (304 : Nat) < 300) ∧
    (open_pr (fun _ => some "tok-1") (fun _ => ⟨304, some [("url", "u")]⟩)
        "https://api.github.com" "acme/widget" "alice:fix-1" "main" "t" "pb").1 =
      .ok [("url", "u")] :=
  ⟨by omega, by decide⟩

/-- Claim C6 amended: for every response whose status code lies in
`[400, 600)` — exactly the statuses `raise_for_status` treats as errors —
`open_pr` fails with the API-request error carrying that status code and the
response's `message` field when present, raises nothing else, and issues
exactly one request. -/
theorem open_pr_error_status (env : String → Option String)
    (post : HttpRequest → HttpResponse)
    (github_api_url repo_name head base title body token : String)
    (req : HttpRequest)
    (htok : env "GITHUB_TOKEN" = some token) (hne : token ≠ "")
    (hreq : req = { method := "POST",
                    url := github_api_url ++ "/repos/" ++ repo_name ++ "/pulls",
                    jsonBody := [("head", head), ("base", base),
                                 ("title", title), ("body", body)],
                    headers := [("Accept", "application/vnd.github.v3+json"),
                                ("Authorization", "Bearer " ++ token)] })
    (hst1 : 400 ≤ (post req).statusCode) (hst2 : (post req).statusCode < 600) :
    open_pr env post github_api_url repo_name head base title body =
      (.error (.apiRequestError (post req).statusCode
        ((post req).jsonData.bind (List.lookup "message"))), [req]) := by
  have hte : token.isEmpty = false := by
    cases hh : token.isEmpty
    · rfl
    · exact absurd ((String.isEmpty_iff token).mp hh) hne
  have hcond : 400 ≤ (post req).statusCode ∧ (post req).statusCode < 600 :=
    ⟨hst1, hst2⟩
  subst hreq
  simp [open_pr, htok, hte, hcond]

/-- Witness for the amended C6: a simulated 422 response with message
`"Validation Failed"` makes `open_pr` fail with the API-request error
carrying 422 and that message, after exactly one request. -/
theorem open_pr_error_status_witness :
    open_pr (fun _ => some "tok-1")
        (fun _ => ⟨422, some [("message", "Validation Failed")]⟩)
        "https://api.github.com" "acme/widget" "alice:fix-1" "main" "t" "pb" =
      (.error (.apiRequestError 422 (some "Validation Failed")),
       [{ method := "POST",
          url := "https://api.github.com" ++ "/repos/" ++ "acme/widget" ++ "/pulls",
          jsonBody := [("head", "alice:fix-1"), ("base", "main"),
                       ("title", "t"), ("body", "pb")],
          headers := [("Accept", "application/vnd.github.v3+json"),
                      ("Authorization", "Bearer " ++ "tok-1")] }]) :=
  open_pr_error_status (fun _ => some "tok-1")
    (fun _ => ⟨422, some [("message", "Validation Failed")]⟩)
    "https://api.github.com" "acme/widget" "alice:fix-1" "main" "t" "pb"
    "tok-1" _ rfl (by decide) rfl (by decide) (by decide)
